import Mathlib

/-!
Verification of `ArraybufferToWav` (src/lib.js) against its specification.

The encoder is a pure byte-level transformation, so we embed it shallowly:

* a JavaScript number value flowing through the sample path is either `NaN`
  or a numeric value, modelled by `JsNumber` with the numeric part a rational
  (every operation the encoder performs on samples — comparison against the
  constants 1, -1, 0 and multiplication by 0x7FFF / 0x8000 — is modelled
  exactly on ℚ, with NaN propagation made explicit);
* an `ArrayBuffer` is a `List ℕ` of bytes, initially zero-filled;
* each `DataView` write primitive (`setUint32`, `setUint16`, `setInt16`)
  is modelled with the ECMAScript numeric conversion it performs
  (`ToUint32` / `ToUint16` / `ToInt16`: truncation toward zero followed by
  reduction modulo the width, NaN mapped to 0) and explicit per-byte stores
  in the requested endianness.
-/

namespace ArraybufferToWav

/-- A JavaScript number as seen by the encoder: `NaN`, or a numeric value
    (modelled as a rational). -/
inductive JsNumber where
  | nan : JsNumber
  | num (q : ℚ) : JsNumber
deriving DecidableEq

/-- JavaScript `<`: false whenever either operand is NaN. -/
def jlt : JsNumber → JsNumber → Bool
  | JsNumber.num a, JsNumber.num b => decide (a < b)
  | _, _ => false

/-- JavaScript `>`: `a > b` holds exactly when `b < a`; false on NaN. -/
def jgt (a b : JsNumber) : Bool := jlt b a

/-- JavaScript multiplication by a numeric constant: NaN propagates. -/
def jmul : JsNumber → ℚ → JsNumber
  | JsNumber.nan, _ => JsNumber.nan
  | JsNumber.num a, k => JsNumber.num (a * k)

/-- Truncation toward zero, the integer conversion at the heart of the
    ECMAScript `ToInt16` / `ToUint32` operations. -/
def ratTrunc (q : ℚ) : ℤ := if q < 0 then ⌈q⌉ else ⌊q⌋

/-- ECMAScript `ToInt16`: NaN becomes 0; otherwise truncate toward zero,
    reduce modulo 2^16 and reinterpret as a signed 16-bit value. -/
def toInt16 : JsNumber → ℤ
  | JsNumber.nan => 0
  | JsNumber.num q =>
    let m := ratTrunc q % 65536
    if m < 32768 then m else m - 65536

/-- ECMAScript `ToUint32`: truncate toward zero, reduce modulo 2^32. -/
def toUint32 (q : ℚ) : ℕ := (ratTrunc q % 4294967296).toNat

/-- ECMAScript `ToUint16`: truncate toward zero, reduce modulo 2^16. -/
def toUint16 (q : ℚ) : ℕ := (ratTrunc q % 65536).toNat

/-- `DataView.setUint32(off, v, true)` — little-endian 32-bit store. -/
def setUint32LE (buf : List ℕ) (off : ℕ) (v : ℚ) : List ℕ :=
  let u := toUint32 v
  ((((buf.set off (u % 256)).set (off + 1) (u / 256 % 256)).set
      (off + 2) (u / 65536 % 256)).set (off + 3) (u / 16777216 % 256))

/-- `DataView.setUint32(off, v, false)` — big-endian 32-bit store. -/
def setUint32BE (buf : List ℕ) (off : ℕ) (v : ℚ) : List ℕ :=
  let u := toUint32 v
  ((((buf.set off (u / 16777216 % 256)).set (off + 1) (u / 65536 % 256)).set
      (off + 2) (u / 256 % 256)).set (off + 3) (u % 256))

/-- `DataView.setUint16(off, v, true)` — little-endian 16-bit store. -/
def setUint16LE (buf : List ℕ) (off : ℕ) (v : ℚ) : List ℕ :=
  let u := toUint16 v
  ((buf.set off (u % 256)).set (off + 1) (u / 256))

/-- `DataView.setInt16(off, v, true)` — little-endian signed 16-bit store. -/
def setInt16LE (buf : List ℕ) (off : ℕ) (v : JsNumber) : List ℕ :=
  let u := (toInt16 v % 65536).toNat
  ((buf.set off (u % 256)).set (off + 1) (u / 256))

/-- `clamp` from src/lib.js:
    `(input, { max, min }) => input > max ? max : input < min ? min : input`. -/
def clamp (input : JsNumber) (max min : JsNumber) : JsNumber :=
  if jgt input max then max else if jlt input min then min else input

/-- The per-sample body of `floatTo16BitPCM` (src/lib.js lines 103–111):
    clamp to `{max: 1, min: -1}`, then multiply by 0x8000 if the clamped
    value is negative, by 0x7FFF otherwise. -/
def encodeSample (value : JsNumber) : JsNumber :=
  let clampedInput := clamp value (JsNumber.num 1) (JsNumber.num (-1))
  if jlt clampedInput (JsNumber.num 0)
  then jmul clampedInput 0x8000
  else jmul clampedInput 0x7FFF

/-- The `forEach` loop of `floatTo16BitPCM`, indexed explicitly: the sample
    at index `index` is written at byte offset `offset + index * 2`. -/
def floatTo16BitPCMGo (output : List ℕ) (offset index : ℕ) :
    List JsNumber → List ℕ
  | [] => output
  | value :: rest =>
    floatTo16BitPCMGo
      (setInt16LE output (offset + index * 2) (encodeSample value))
      offset (index + 1) rest

/-- `floatTo16BitPCM(output, offset, input)` from src/lib.js. -/
def floatTo16BitPCM (output : List ℕ) (offset : ℕ)
    (input : List JsNumber) : List ℕ :=
  floatTo16BitPCMGo output offset 0 input

/-- The default export of src/lib.js: allocate a zero-filled buffer of
    `44 + data.length * 2` bytes, write the RIFF/WAVE header fields at their
    offsets, then write the PCM data at offset 44. The `Blob` wrapping is
    outside the byte-level core; the byte buffer is the result. -/
def encode (data : List JsNumber) (sampleRate : ℚ := 44100) : List ℕ :=
  let buffer := List.replicate (44 + data.length * 2) 0
  let v0 := setUint32BE buffer 0 0x52494646
  let v1 := setUint32LE v0 4 ((36 + data.length * 2 : ℕ) : ℚ)
  let v2 := setUint32BE v1 8 0x57415645
  let v3 := setUint32BE v2 12 0x666d7420
  let v4 := setUint32LE v3 16 0x00000010
  let v5 := setUint16LE v4 20 0x00000001
  let v6 := setUint16LE v5 22 0x00000001
  let v7 := setUint32LE v6 24 sampleRate
  let v8 := setUint32LE v7 28 (sampleRate * 2 * 1 / 8)
  let v9 := setUint16LE v8 32 0x00000002
  let v10 := setUint16LE v9 34 0x00000010
  let v11 := setUint32BE v10 36 0x64617461
  let v12 := setUint32LE v11 40 ((data.length * 2 : ℕ) : ℚ)
  floatTo16BitPCM v12 44 data

/-! ### Readers: decoding bytes back out of the buffer -/

/-- The byte at index `i` of the buffer (0 if out of range). -/
def readByte (buf : List ℕ) (i : ℕ) : ℕ := buf.getD i 0

/-- Little-endian unsigned 16-bit read. -/
def readUint16LE (buf : List ℕ) (off : ℕ) : ℕ :=
  readByte buf off + 256 * readByte buf (off + 1)

/-- Little-endian unsigned 32-bit read. -/
def readUint32LE (buf : List ℕ) (off : ℕ) : ℕ :=
  readByte buf off + 256 * readByte buf (off + 1) +
    65536 * readByte buf (off + 2) + 16777216 * readByte buf (off + 3)

/-- Big-endian unsigned 32-bit read. -/
def readUint32BE (buf : List ℕ) (off : ℕ) : ℕ :=
  16777216 * readByte buf off + 65536 * readByte buf (off + 1) +
    256 * readByte buf (off + 2) + readByte buf (off + 3)

/-- Little-endian signed 16-bit read. -/
def readInt16LE (buf : List ℕ) (off : ℕ) : ℤ :=
  let u := readUint16LE buf off
  if u < 32768 then (u : ℤ) else (u : ℤ) - 65536

/-! ### Basic byte-buffer lemmas -/

lemma readByte_set_ne {buf : List ℕ} {k j : ℕ} (b : ℕ) (h : j ≠ k) :
    readByte (buf.set k b) j = readByte buf j := by
  simp [readByte, List.getD_eq_getElem?_getD, List.getElem?_set_ne (Ne.symm h)]

lemma readByte_set_self {buf : List ℕ} {k : ℕ} (b : ℕ) (h : k < buf.length) :
    readByte (buf.set k b) k = b := by
  simp [readByte, List.getD_eq_getElem?_getD, List.getElem?_set_eq_of_lt b h]

@[simp] lemma setUint32LE_length (buf : List ℕ) (off : ℕ) (v : ℚ) :
    (setUint32LE buf off v).length = buf.length := by
  simp [setUint32LE]

@[simp] lemma setUint32BE_length (buf : List ℕ) (off : ℕ) (v : ℚ) :
    (setUint32BE buf off v).length = buf.length := by
  simp [setUint32BE]

@[simp] lemma setUint16LE_length (buf : List ℕ) (off : ℕ) (v : ℚ) :
    (setUint16LE buf off v).length = buf.length := by
  simp [setUint16LE]

@[simp] lemma setInt16LE_length (buf : List ℕ) (off : ℕ) (v : JsNumber) :
    (setInt16LE buf off v).length = buf.length := by
  simp [setInt16LE]

lemma readByte_setUint32LE_out {buf : List ℕ} {off : ℕ} {v : ℚ} {j : ℕ}
    (h : j < off ∨ off + 3 < j) :
    readByte (setUint32LE buf off v) j = readByte buf j := by
  simp only [setUint32LE]
  rw [readByte_set_ne _ (by omega), readByte_set_ne _ (by omega),
    readByte_set_ne _ (by omega), readByte_set_ne _ (by omega)]

lemma readByte_setUint32BE_out {buf : List ℕ} {off : ℕ} {v : ℚ} {j : ℕ}
    (h : j < off ∨ off + 3 < j) :
    readByte (setUint32BE buf off v) j = readByte buf j := by
  simp only [setUint32BE]
  rw [readByte_set_ne _ (by omega), readByte_set_ne _ (by omega),
    readByte_set_ne _ (by omega), readByte_set_ne _ (by omega)]

lemma readByte_setUint16LE_out {buf : List ℕ} {off : ℕ} {v : ℚ} {j : ℕ}
    (h : j < off ∨ off + 1 < j) :
    readByte (setUint16LE buf off v) j = readByte buf j := by
  simp only [setUint16LE]
  rw [readByte_set_ne _ (by omega), readByte_set_ne _ (by omega)]

lemma readByte_setInt16LE_out {buf : List ℕ} {off : ℕ} {v : JsNumber} {j : ℕ}
    (h : j < off ∨ off + 1 < j) :
    readByte (setInt16LE buf off v) j = readByte buf j := by
  simp only [setInt16LE]
  rw [readByte_set_ne _ (by omega), readByte_set_ne _ (by omega)]

/-! ### Conversion bounds and round-trips -/

lemma toUint32_lt (v : ℚ) : toUint32 v < 4294967296 := by
  unfold toUint32
  omega

lemma toUint16_lt (v : ℚ) : toUint16 v < 65536 := by
  unfold toUint16
  omega

lemma toInt16_bounds (v : JsNumber) : -32768 ≤ toInt16 v ∧ toInt16 v < 32768 := by
  cases v with
  | nan => simp [toInt16]
  | num q =>
    simp only [toInt16]
    split <;> omega

lemma readUint32LE_setUint32LE {buf : List ℕ} {off : ℕ} (v : ℚ)
    (h : off + 3 < buf.length) :
    readUint32LE (setUint32LE buf off v) off = toUint32 v := by
  have h32 := toUint32_lt v
  simp only [setUint32LE, readUint32LE]
  rw [readByte_set_ne _ (by omega), readByte_set_ne _ (by omega),
    readByte_set_ne _ (by omega),
    readByte_set_self _ (by (try simp only [List.length_set]); omega),
    readByte_set_ne _ (by omega), readByte_set_ne _ (by omega),
    readByte_set_self _ (by (try simp only [List.length_set]); omega),
    readByte_set_ne _ (by omega),
    readByte_set_self _ (by (try simp only [List.length_set]); omega),
    readByte_set_self _ (by (try simp only [List.length_set]); omega)]
  omega

lemma readUint32BE_setUint32BE {buf : List ℕ} {off : ℕ} (v : ℚ)
    (h : off + 3 < buf.length) :
    readUint32BE (setUint32BE buf off v) off = toUint32 v := by
  have h32 := toUint32_lt v
  simp only [setUint32BE, readUint32BE]
  rw [readByte_set_ne _ (by omega), readByte_set_ne _ (by omega),
    readByte_set_ne _ (by omega),
    readByte_set_self _ (by (try simp only [List.length_set]); omega),
    readByte_set_ne _ (by omega), readByte_set_ne _ (by omega),
    readByte_set_self _ (by (try simp only [List.length_set]); omega),
    readByte_set_ne _ (by omega),
    readByte_set_self _ (by (try simp only [List.length_set]); omega),
    readByte_set_self _ (by (try simp only [List.length_set]); omega)]
  omega

lemma readUint16LE_setUint16LE {buf : List ℕ} {off : ℕ} (v : ℚ)
    (h : off + 1 < buf.length) :
    readUint16LE (setUint16LE buf off v) off = toUint16 v := by
  have h16 := toUint16_lt v
  simp only [setUint16LE, readUint16LE]
  rw [readByte_set_ne _ (by omega),
    readByte_set_self _ (by (try simp only [List.length_set]); omega),
    readByte_set_self _ (by (try simp only [List.length_set]); omega)]
  omega

lemma readInt16LE_setInt16LE {buf : List ℕ} {off : ℕ} (v : JsNumber)
    (h : off + 1 < buf.length) :
    readInt16LE (setInt16LE buf off v) off = toInt16 v := by
  have hb := toInt16_bounds v
  simp only [setInt16LE, readInt16LE, readUint16LE]
  rw [readByte_set_ne _ (by omega),
    readByte_set_self _ (by (try simp only [List.length_set]); omega),
    readByte_set_self _ (by (try simp only [List.length_set]); omega)]
  split <;> omega

lemma ratTrunc_natCast (n : ℕ) : ratTrunc ((n : ℕ) : ℚ) = n := by
  rw [ratTrunc, if_neg (not_lt.mpr (Nat.cast_nonneg n)), Int.floor_natCast]

lemma toUint32_natCast (n : ℕ) (h : n < 4294967296) : toUint32 ((n : ℕ) : ℚ) = n := by
  simp only [toUint32, ratTrunc_natCast]
  omega

/-! ### The PCM write loop: length, non-interference below the write region,
    and the byte pair written for each sample -/

lemma floatTo16BitPCMGo_length (off : ℕ) (inp : List JsNumber) :
    ∀ (out : List ℕ) (idx : ℕ),
      (floatTo16BitPCMGo out off idx inp).length = out.length := by
  induction inp with
  | nil => intro out idx; rfl
  | cons v rest ih =>
    intro out idx
    simp only [floatTo16BitPCMGo]
    rw [ih _ (idx + 1), setInt16LE_length]

lemma floatTo16BitPCMGo_readByte_lo (off : ℕ) (inp : List JsNumber) :
    ∀ (out : List ℕ) (idx j : ℕ), j < off + idx * 2 →
      readByte (floatTo16BitPCMGo out off idx inp) j = readByte out j := by
  induction inp with
  | nil => intro out idx j _; rfl
  | cons v rest ih =>
    intro out idx j h
    simp only [floatTo16BitPCMGo]
    rw [ih _ (idx + 1) j (by omega), readByte_setInt16LE_out (by omega)]

lemma floatTo16BitPCMGo_readByte_sample (off : ℕ) (inp : List JsNumber) :
    ∀ (out : List ℕ) (idx i : ℕ) (h : i < inp.length),
      off + (idx + inp.length) * 2 ≤ out.length →
      readByte (floatTo16BitPCMGo out off idx inp) (off + (idx + i) * 2) =
        (toInt16 (encodeSample (inp.get ⟨i, h⟩)) % 65536).toNat % 256 ∧
      readByte (floatTo16BitPCMGo out off idx inp) (off + (idx + i) * 2 + 1) =
        (toInt16 (encodeSample (inp.get ⟨i, h⟩)) % 65536).toNat / 256 := by
  induction inp with
  | nil => intro out idx i h; exact absurd h (by simp)
  | cons v rest ih =>
    intro out idx i h hlen
    cases i with
    | zero =>
      simp only [floatTo16BitPCMGo, Nat.add_zero, List.get_cons_zero]
      rw [floatTo16BitPCMGo_readByte_lo off rest _ (idx + 1) _ (by omega),
        floatTo16BitPCMGo_readByte_lo off rest _ (idx + 1) _ (by omega)]
      simp only [setInt16LE]
      constructor
      · rw [readByte_set_ne _ (by omega),
          readByte_set_self _ (by simp only [List.length_cons] at hlen; omega)]
        rfl
      · rw [readByte_set_self _
          (by simp only [List.length_set, List.length_cons] at hlen ⊢; omega)]
        rfl
    | succ n =>
      rw [show idx + (n + 1) = (idx + 1) + n from by omega]
      simp only [floatTo16BitPCMGo, List.get_cons_succ]
      exact ih _ (idx + 1) n (by simpa using h)
        (by simp only [setInt16LE_length, List.length_cons] at hlen ⊢; omega)

/-! ### Reader-level non-interference lemmas -/

lemma readUint32LE_floatTo16BitPCMGo {out : List ℕ} {off idx : ℕ}
    {inp : List JsNumber} {roff : ℕ} (h : roff + 3 < off + idx * 2) :
    readUint32LE (floatTo16BitPCMGo out off idx inp) roff = readUint32LE out roff := by
  simp only [readUint32LE]
  rw [floatTo16BitPCMGo_readByte_lo off inp out idx _ (by omega),
    floatTo16BitPCMGo_readByte_lo off inp out idx _ (by omega),
    floatTo16BitPCMGo_readByte_lo off inp out idx _ (by omega),
    floatTo16BitPCMGo_readByte_lo off inp out idx _ (by omega)]

lemma readUint32BE_floatTo16BitPCMGo {out : List ℕ} {off idx : ℕ}
    {inp : List JsNumber} {roff : ℕ} (h : roff + 3 < off + idx * 2) :
    readUint32BE (floatTo16BitPCMGo out off idx inp) roff = readUint32BE out roff := by
  simp only [readUint32BE]
  rw [floatTo16BitPCMGo_readByte_lo off inp out idx _ (by omega),
    floatTo16BitPCMGo_readByte_lo off inp out idx _ (by omega),
    floatTo16BitPCMGo_readByte_lo off inp out idx _ (by omega),
    floatTo16BitPCMGo_readByte_lo off inp out idx _ (by omega)]

lemma readUint16LE_floatTo16BitPCMGo {out : List ℕ} {off idx : ℕ}
    {inp : List JsNumber} {roff : ℕ} (h : roff + 1 < off + idx * 2) :
    readUint16LE (floatTo16BitPCMGo out off idx inp) roff = readUint16LE out roff := by
  simp only [readUint16LE]
  rw [floatTo16BitPCMGo_readByte_lo off inp out idx _ (by omega),
    floatTo16BitPCMGo_readByte_lo off inp out idx _ (by omega)]

lemma readUint32LE_setUint32LE_out {buf : List ℕ} {off : ℕ} {v : ℚ} {roff : ℕ}
    (h : roff + 3 < off ∨ off + 3 < roff) :
    readUint32LE (setUint32LE buf off v) roff = readUint32LE buf roff := by
  simp only [readUint32LE]
  rw [readByte_setUint32LE_out (by omega), readByte_setUint32LE_out (by omega),
    readByte_setUint32LE_out (by omega), readByte_setUint32LE_out (by omega)]

lemma readUint32LE_setUint32BE_out {buf : List ℕ} {off : ℕ} {v : ℚ} {roff : ℕ}
    (h : roff + 3 < off ∨ off + 3 < roff) :
    readUint32LE (setUint32BE buf off v) roff = readUint32LE buf roff := by
  simp only [readUint32LE]
  rw [readByte_setUint32BE_out (by omega), readByte_setUint32BE_out (by omega),
    readByte_setUint32BE_out (by omega), readByte_setUint32BE_out (by omega)]

lemma readUint32LE_setUint16LE_out {buf : List ℕ} {off : ℕ} {v : ℚ} {roff : ℕ}
    (h : roff + 3 < off ∨ off + 1 < roff) :
    readUint32LE (setUint16LE buf off v) roff = readUint32LE buf roff := by
  simp only [readUint32LE]
  rw [readByte_setUint16LE_out (by omega), readByte_setUint16LE_out (by omega),
    readByte_setUint16LE_out (by omega), readByte_setUint16LE_out (by omega)]

lemma readUint32BE_setUint32LE_out {buf : List ℕ} {off : ℕ} {v : ℚ} {roff : ℕ}
    (h : roff + 3 < off ∨ off + 3 < roff) :
    readUint32BE (setUint32LE buf off v) roff = readUint32BE buf roff := by
  simp only [readUint32BE]
  rw [readByte_setUint32LE_out (by omega), readByte_setUint32LE_out (by omega),
    readByte_setUint32LE_out (by omega), readByte_setUint32LE_out (by omega)]

lemma readUint32BE_setUint32BE_out {buf : List ℕ} {off : ℕ} {v : ℚ} {roff : ℕ}
    (h : roff + 3 < off ∨ off + 3 < roff) :
    readUint32BE (setUint32BE buf off v) roff = readUint32BE buf roff := by
  simp only [readUint32BE]
  rw [readByte_setUint32BE_out (by omega), readByte_setUint32BE_out (by omega),
    readByte_setUint32BE_out (by omega), readByte_setUint32BE_out (by omega)]

lemma readUint32BE_setUint16LE_out {buf : List ℕ} {off : ℕ} {v : ℚ} {roff : ℕ}
    (h : roff + 3 < off ∨ off + 1 < roff) :
    readUint32BE (setUint16LE buf off v) roff = readUint32BE buf roff := by
  simp only [readUint32BE]
  rw [readByte_setUint16LE_out (by omega), readByte_setUint16LE_out (by omega),
    readByte_setUint16LE_out (by omega), readByte_setUint16LE_out (by omega)]

lemma readUint16LE_setUint32LE_out {buf : List ℕ} {off : ℕ} {v : ℚ} {roff : ℕ}
    (h : roff + 1 < off ∨ off + 3 < roff) :
    readUint16LE (setUint32LE buf off v) roff = readUint16LE buf roff := by
  simp only [readUint16LE]
  rw [readByte_setUint32LE_out (by omega), readByte_setUint32LE_out (by omega)]

lemma readUint16LE_setUint32BE_out {buf : List ℕ} {off : ℕ} {v : ℚ} {roff : ℕ}
    (h : roff + 1 < off ∨ off + 3 < roff) :
    readUint16LE (setUint32BE buf off v) roff = readUint16LE buf roff := by
  simp only [readUint16LE]
  rw [readByte_setUint32BE_out (by omega), readByte_setUint32BE_out (by omega)]

lemma readUint16LE_setUint16LE_out {buf : List ℕ} {off : ℕ} {v : ℚ} {roff : ℕ}
    (h : roff + 1 < off ∨ off + 1 < roff) :
    readUint16LE (setUint16LE buf off v) roff = readUint16LE buf roff := by
  simp only [readUint16LE]
  rw [readByte_setUint16LE_out (by omega), readByte_setUint16LE_out (by omega)]

/-! ### Header fields of `encode` -/

/-- The header field at byte offset 0, read back from `encode`. -/
lemma encode_read0 (data : List JsNumber) (sampleRate : ℚ) :
    readUint32BE (encode data sampleRate) 0 = 0x52494646 := by
  simp only [encode, floatTo16BitPCM]
  rw [readUint32BE_floatTo16BitPCMGo (by omega)]
  rw [readUint32BE_setUint32LE_out (by omega)]
  rw [readUint32BE_setUint32BE_out (by omega)]
  rw [readUint32BE_setUint16LE_out (by omega)]
  rw [readUint32BE_setUint16LE_out (by omega)]
  rw [readUint32BE_setUint32LE_out (by omega)]
  rw [readUint32BE_setUint32LE_out (by omega)]
  rw [readUint32BE_setUint16LE_out (by omega)]
  rw [readUint32BE_setUint16LE_out (by omega)]
  rw [readUint32BE_setUint32LE_out (by omega)]
  rw [readUint32BE_setUint32BE_out (by omega)]
  rw [readUint32BE_setUint32BE_out (by omega)]
  rw [readUint32BE_setUint32LE_out (by omega)]
  rw [readUint32BE_setUint32BE _ (by simp only [setUint32LE_length,
    setUint32BE_length, setUint16LE_length, List.length_replicate]; omega)]
  decide

/-- The header field at byte offset 4, read back from `encode`. -/
lemma encode_read4 (data : List JsNumber) (sampleRate : ℚ) :
    readUint32LE (encode data sampleRate) 4 = toUint32 ((36 + data.length * 2 : ℕ) : ℚ) := by
  simp only [encode, floatTo16BitPCM]
  rw [readUint32LE_floatTo16BitPCMGo (by omega)]
  rw [readUint32LE_setUint32LE_out (by omega)]
  rw [readUint32LE_setUint32BE_out (by omega)]
  rw [readUint32LE_setUint16LE_out (by omega)]
  rw [readUint32LE_setUint16LE_out (by omega)]
  rw [readUint32LE_setUint32LE_out (by omega)]
  rw [readUint32LE_setUint32LE_out (by omega)]
  rw [readUint32LE_setUint16LE_out (by omega)]
  rw [readUint32LE_setUint16LE_out (by omega)]
  rw [readUint32LE_setUint32LE_out (by omega)]
  rw [readUint32LE_setUint32BE_out (by omega)]
  rw [readUint32LE_setUint32BE_out (by omega)]
  rw [readUint32LE_setUint32LE _ (by simp only [setUint32LE_length,
    setUint32BE_length, setUint16LE_length, List.length_replicate]; omega)]

/-- The header field at byte offset 8, read back from `encode`. -/
lemma encode_read8 (data : List JsNumber) (sampleRate : ℚ) :
    readUint32BE (encode data sampleRate) 8 = 0x57415645 := by
  simp only [encode, floatTo16BitPCM]
  rw [readUint32BE_floatTo16BitPCMGo (by omega)]
  rw [readUint32BE_setUint32LE_out (by omega)]
  rw [readUint32BE_setUint32BE_out (by omega)]
  rw [readUint32BE_setUint16LE_out (by omega)]
  rw [readUint32BE_setUint16LE_out (by omega)]
  rw [readUint32BE_setUint32LE_out (by omega)]
  rw [readUint32BE_setUint32LE_out (by omega)]
  rw [readUint32BE_setUint16LE_out (by omega)]
  rw [readUint32BE_setUint16LE_out (by omega)]
  rw [readUint32BE_setUint32LE_out (by omega)]
  rw [readUint32BE_setUint32BE_out (by omega)]
  rw [readUint32BE_setUint32BE _ (by simp only [setUint32LE_length,
    setUint32BE_length, setUint16LE_length, List.length_replicate]; omega)]
  decide

/-- The header field at byte offset 12, read back from `encode`. -/
lemma encode_read12 (data : List JsNumber) (sampleRate : ℚ) :
    readUint32BE (encode data sampleRate) 12 = 0x666d7420 := by
  simp only [encode, floatTo16BitPCM]
  rw [readUint32BE_floatTo16BitPCMGo (by omega)]
  rw [readUint32BE_setUint32LE_out (by omega)]
  rw [readUint32BE_setUint32BE_out (by omega)]
  rw [readUint32BE_setUint16LE_out (by omega)]
  rw [readUint32BE_setUint16LE_out (by omega)]
  rw [readUint32BE_setUint32LE_out (by omega)]
  rw [readUint32BE_setUint32LE_out (by omega)]
  rw [readUint32BE_setUint16LE_out (by omega)]
  rw [readUint32BE_setUint16LE_out (by omega)]
  rw [readUint32BE_setUint32LE_out (by omega)]
  rw [readUint32BE_setUint32BE _ (by simp only [setUint32LE_length,
    setUint32BE_length, setUint16LE_length, List.length_replicate]; omega)]
  decide

/-- The header field at byte offset 16, read back from `encode`. -/
lemma encode_read16 (data : List JsNumber) (sampleRate : ℚ) :
    readUint32LE (encode data sampleRate) 16 = 16 := by
  simp only [encode, floatTo16BitPCM]
  rw [readUint32LE_floatTo16BitPCMGo (by omega)]
  rw [readUint32LE_setUint32LE_out (by omega)]
  rw [readUint32LE_setUint32BE_out (by omega)]
  rw [readUint32LE_setUint16LE_out (by omega)]
  rw [readUint32LE_setUint16LE_out (by omega)]
  rw [readUint32LE_setUint32LE_out (by omega)]
  rw [readUint32LE_setUint32LE_out (by omega)]
  rw [readUint32LE_setUint16LE_out (by omega)]
  rw [readUint32LE_setUint16LE_out (by omega)]
  rw [readUint32LE_setUint32LE _ (by simp only [setUint32LE_length,
    setUint32BE_length, setUint16LE_length, List.length_replicate]; omega)]
  decide

/-- The header field at byte offset 20, read back from `encode`. -/
lemma encode_read20 (data : List JsNumber) (sampleRate : ℚ) :
    readUint16LE (encode data sampleRate) 20 = 1 := by
  simp only [encode, floatTo16BitPCM]
  rw [readUint16LE_floatTo16BitPCMGo (by omega)]
  rw [readUint16LE_setUint32LE_out (by omega)]
  rw [readUint16LE_setUint32BE_out (by omega)]
  rw [readUint16LE_setUint16LE_out (by omega)]
  rw [readUint16LE_setUint16LE_out (by omega)]
  rw [readUint16LE_setUint32LE_out (by omega)]
  rw [readUint16LE_setUint32LE_out (by omega)]
  rw [readUint16LE_setUint16LE_out (by omega)]
  rw [readUint16LE_setUint16LE _ (by simp only [setUint32LE_length,
    setUint32BE_length, setUint16LE_length, List.length_replicate]; omega)]
  decide

/-- The header field at byte offset 22, read back from `encode`. -/
lemma encode_read22 (data : List JsNumber) (sampleRate : ℚ) :
    readUint16LE (encode data sampleRate) 22 = 1 := by
  simp only [encode, floatTo16BitPCM]
  rw [readUint16LE_floatTo16BitPCMGo (by omega)]
  rw [readUint16LE_setUint32LE_out (by omega)]
  rw [readUint16LE_setUint32BE_out (by omega)]
  rw [readUint16LE_setUint16LE_out (by omega)]
  rw [readUint16LE_setUint16LE_out (by omega)]
  rw [readUint16LE_setUint32LE_out (by omega)]
  rw [readUint16LE_setUint32LE_out (by omega)]
  rw [readUint16LE_setUint16LE _ (by simp only [setUint32LE_length,
    setUint32BE_length, setUint16LE_length, List.length_replicate]; omega)]
  decide

/-- The header field at byte offset 24, read back from `encode`. -/
lemma encode_read24 (data : List JsNumber) (sampleRate : ℚ) :
    readUint32LE (encode data sampleRate) 24 = toUint32 sampleRate := by
  simp only [encode, floatTo16BitPCM]
  rw [readUint32LE_floatTo16BitPCMGo (by omega)]
  rw [readUint32LE_setUint32LE_out (by omega)]
  rw [readUint32LE_setUint32BE_out (by omega)]
  rw [readUint32LE_setUint16LE_out (by omega)]
  rw [readUint32LE_setUint16LE_out (by omega)]
  rw [readUint32LE_setUint32LE_out (by omega)]
  rw [readUint32LE_setUint32LE _ (by simp only [setUint32LE_length,
    setUint32BE_length, setUint16LE_length, List.length_replicate]; omega)]

/-- The header field at byte offset 28, read back from `encode`. -/
lemma encode_read28 (data : List JsNumber) (sampleRate : ℚ) :
    readUint32LE (encode data sampleRate) 28 = toUint32 (sampleRate * 2 * 1 / 8) := by
  simp only [encode, floatTo16BitPCM]
  rw [readUint32LE_floatTo16BitPCMGo (by omega)]
  rw [readUint32LE_setUint32LE_out (by omega)]
  rw [readUint32LE_setUint32BE_out (by omega)]
  rw [readUint32LE_setUint16LE_out (by omega)]
  rw [readUint32LE_setUint16LE_out (by omega)]
  rw [readUint32LE_setUint32LE _ (by simp only [setUint32LE_length,
    setUint32BE_length, setUint16LE_length, List.length_replicate]; omega)]

/-- The header field at byte offset 32, read back from `encode`. -/
lemma encode_read32 (data : List JsNumber) (sampleRate : ℚ) :
    readUint16LE (encode data sampleRate) 32 = 2 := by
  simp only [encode, floatTo16BitPCM]
  rw [readUint16LE_floatTo16BitPCMGo (by omega)]
  rw [readUint16LE_setUint32LE_out (by omega)]
  rw [readUint16LE_setUint32BE_out (by omega)]
  rw [readUint16LE_setUint16LE_out (by omega)]
  rw [readUint16LE_setUint16LE _ (by simp only [setUint32LE_length,
    setUint32BE_length, setUint16LE_length, List.length_replicate]; omega)]
  decide

/-- The header field at byte offset 34, read back from `encode`. -/
lemma encode_read34 (data : List JsNumber) (sampleRate : ℚ) :
    readUint16LE (encode data sampleRate) 34 = 16 := by
  simp only [encode, floatTo16BitPCM]
  rw [readUint16LE_floatTo16BitPCMGo (by omega)]
  rw [readUint16LE_setUint32LE_out (by omega)]
  rw [readUint16LE_setUint32BE_out (by omega)]
  rw [readUint16LE_setUint16LE _ (by simp only [setUint32LE_length,
    setUint32BE_length, setUint16LE_length, List.length_replicate]; omega)]
  decide

/-- The header field at byte offset 36, read back from `encode`. -/
lemma encode_read36 (data : List JsNumber) (sampleRate : ℚ) :
    readUint32BE (encode data sampleRate) 36 = 0x64617461 := by
  simp only [encode, floatTo16BitPCM]
  rw [readUint32BE_floatTo16BitPCMGo (by omega)]
  rw [readUint32BE_setUint32LE_out (by omega)]
  rw [readUint32BE_setUint32BE _ (by simp only [setUint32LE_length,
    setUint32BE_length, setUint16LE_length, List.length_replicate]; omega)]
  decide

/-- The header field at byte offset 40, read back from `encode`. -/
lemma encode_read40 (data : List JsNumber) (sampleRate : ℚ) :
    readUint32LE (encode data sampleRate) 40 = toUint32 ((data.length * 2 : ℕ) : ℚ) := by
  simp only [encode, floatTo16BitPCM]
  rw [readUint32LE_floatTo16BitPCMGo (by omega)]
  rw [readUint32LE_setUint32LE _ (by simp only [setUint32LE_length,
    setUint32BE_length, setUint16LE_length, List.length_replicate]; omega)]

/-! ### Sample bytes of `encode` -/

lemma encode_readByte_sample (data : List JsNumber) (sampleRate : ℚ) (i : ℕ)
    (h : i < data.length) :
    readByte (encode data sampleRate) (44 + 2 * i) =
      (toInt16 (encodeSample (data.get ⟨i, h⟩)) % 65536).toNat % 256 ∧
    readByte (encode data sampleRate) (44 + 2 * i + 1) =
      (toInt16 (encodeSample (data.get ⟨i, h⟩)) % 65536).toNat / 256 := by
  simp only [encode, floatTo16BitPCM]
  rw [show 44 + 2 * i = 44 + (0 + i) * 2 from by ring]
  exact floatTo16BitPCMGo_readByte_sample 44 data _ 0 i h
    (by simp only [setUint32LE_length, setUint32BE_length, setUint16LE_length,
      List.length_replicate]; omega)

lemma encode_readInt16_sample (data : List JsNumber) (sampleRate : ℚ) (i : ℕ)
    (h : i < data.length) :
    readInt16LE (encode data sampleRate) (44 + 2 * i) =
      toInt16 (encodeSample (data.get ⟨i, h⟩)) := by
  obtain ⟨hlo, hhi⟩ := encode_readByte_sample data sampleRate i h
  have hb := toInt16_bounds (encodeSample (data.get ⟨i, h⟩))
  simp only [readInt16LE, readUint16LE, hlo, hhi]
  split <;> omega

/-! ### Arithmetic facts about the quantization -/

lemma ratTrunc_bounds (x : ℚ) (lo hi : ℤ) (h1 : (lo : ℚ) ≤ x) (h2 : x ≤ (hi : ℚ)) :
    lo ≤ ratTrunc x ∧ ratTrunc x ≤ hi := by
  unfold ratTrunc
  split
  · constructor
    · calc lo = ⌈((lo : ℤ) : ℚ)⌉ := (Int.ceil_intCast lo).symm
        _ ≤ ⌈x⌉ := Int.ceil_le_ceil h1
    · calc ⌈x⌉ ≤ ⌈((hi : ℤ) : ℚ)⌉ := Int.ceil_le_ceil h2
        _ = hi := Int.ceil_intCast hi
  · constructor
    · calc lo = ⌊((lo : ℤ) : ℚ)⌋ := (Int.floor_intCast lo).symm
        _ ≤ ⌊x⌋ := Int.floor_le_floor h1
    · calc ⌊x⌋ ≤ ⌊((hi : ℤ) : ℚ)⌋ := Int.floor_le_floor h2
        _ = hi := Int.floor_intCast hi

lemma toInt16_num_of_range (x : ℚ) (h1 : -32768 ≤ x) (h2 : x ≤ 32767) :
    toInt16 (JsNumber.num x) = ratTrunc x := by
  have hb := ratTrunc_bounds x (-32768) 32767 (by exact_mod_cast h1) (by exact_mod_cast h2)
  simp only [toInt16]
  split <;> omega

/-- Closed form of `encodeSample` on a numeric sample: clamp to [-1, 1],
    then scale by 0x8000 for negative values and 0x7FFF otherwise. -/
lemma encodeSample_num (v : ℚ) :
    encodeSample (JsNumber.num v) =
      JsNumber.num
        (if (if 1 < v then (1 : ℚ) else if v < -1 then -1 else v) < 0
         then (if 1 < v then (1 : ℚ) else if v < -1 then -1 else v) * 32768
         else (if 1 < v then (1 : ℚ) else if v < -1 then -1 else v) * 32767) := by
  by_cases h1 : 1 < v
  · norm_num [encodeSample, clamp, jgt, jlt, jmul, h1]
  · by_cases h2 : v < -1
    · norm_num [encodeSample, clamp, jgt, jlt, jmul, h1, h2]
    · by_cases h3 : v < 0
      · norm_num [encodeSample, clamp, jgt, jlt, jmul, h1, h2, h3]
      · norm_num [encodeSample, clamp, jgt, jlt, jmul, h1, h2, h3]

/-! ### Concrete evaluations used by the end-to-end checks -/

lemma byteRate_44100 : ((44100 : ℚ) * 2 * 1 / 8) = 11025 := by norm_num

lemma encodeSample_one : encodeSample (JsNumber.num 1) = JsNumber.num 32767 := by
  norm_num [encodeSample, clamp, jgt, jlt, jmul]

lemma encodeSample_negOne :
    encodeSample (JsNumber.num (-1)) = JsNumber.num (-32768) := by
  norm_num [encodeSample, clamp, jgt, jlt, jmul]

lemma encodeSample_zero : encodeSample (JsNumber.num 0) = JsNumber.num 0 := by
  norm_num [encodeSample, clamp, jgt, jlt, jmul]

lemma encodeSample_nan : encodeSample JsNumber.nan = JsNumber.nan := rfl

/-! ## The claims -/

/-- C1: the spec says the ByteRate field at offset 28 equals `sampleRate * 2`,
    and the header comment in the source gives the formula
    `(SampleRate * NumChannels * BitsPerSample) / 8 = sampleRate * 2`; but the
    code computes `(sampleRate * 2 * 1) / 8`, so at sampleRate 44100 the field
    holds 11025, not 88200. -/
theorem C1_byteRate_offset28 :
    readUint32LE (encode [] 44100) 28 = 11025 ∧ (11025 : ℕ) ≠ 44100 * 2 := by
  constructor
  · rw [encode_read28, byteRate_44100]
    decide
  · decide

/-- C2: quantization multiplies the clamped value by 32768 when it is
    negative and by 32767 otherwise, and the 16-bit write truncates the
    result toward zero; 1.0 encodes to 32767, -1.0 to -32768, 0.0 to 0. -/
theorem C2_quantization :
    (∀ v : ℚ,
      toInt16 (encodeSample (JsNumber.num v)) =
        (if (if 1 < v then (1 : ℚ) else if v < -1 then -1 else v) < 0
         then ratTrunc ((if 1 < v then (1 : ℚ) else if v < -1 then -1 else v) * 32768)
         else ratTrunc ((if 1 < v then (1 : ℚ) else if v < -1 then -1 else v) * 32767)))
    ∧ readInt16LE (encode [JsNumber.num 1] 44100) 44 = 32767
    ∧ readInt16LE (encode [JsNumber.num (-1)] 44100) 44 = -32768
    ∧ readInt16LE (encode [JsNumber.num 0] 44100) 44 = 0 := by
  refine ⟨?_, ?_, ?_, ?_⟩
  · intro v
    rw [encodeSample_num v]
    set c := if 1 < v then (1 : ℚ) else if v < -1 then -1 else v with hc
    have hc1 : -1 ≤ c := by rw [hc]; split_ifs <;> linarith
    have hc2 : c ≤ 1 := by rw [hc]; split_ifs <;> linarith
    by_cases h : c < 0
    · simp only [if_pos h]
      exact toInt16_num_of_range _ (by linarith) (by linarith)
    · simp only [if_neg h]
      exact toInt16_num_of_range _ (by linarith) (by linarith)
  · simp only [encode, floatTo16BitPCM, floatTo16BitPCMGo, encodeSample_one,
      byteRate_44100]
    decide
  · simp only [encode, floatTo16BitPCM, floatTo16BitPCMGo, encodeSample_negOne,
      byteRate_44100]
    decide
  · simp only [encode, floatTo16BitPCM, floatTo16BitPCMGo, encodeSample_zero,
      byteRate_44100]
    decide

/-- C2 witness: the quantization read back concretely on sample 1.0. -/
theorem C2_quantization_witness :
    readInt16LE (encode [JsNumber.num 1] 44100) 44 = 32767 :=
  C2_quantization.2.1

/-- C3: the ChunkSize field at offset 4 equals `36 + N*2` and the
    Subchunk2Size field at offset 40 equals `N*2` (whenever those values are
    representable in the 32-bit field); the empty input gives ChunkSize 36
    and Subchunk2Size 0. -/
theorem C3_sizes (data : List JsNumber) (sampleRate : ℚ)
    (h : data.length * 2 + 36 < 4294967296) :
    readUint32LE (encode data sampleRate) 4 = 36 + data.length * 2 ∧
    readUint32LE (encode data sampleRate) 40 = data.length * 2 ∧
    readUint32LE (encode [] 44100) 4 = 36 ∧
    readUint32LE (encode [] 44100) 40 = 0 := by
  refine ⟨?_, ?_, ?_, ?_⟩
  · rw [encode_read4, toUint32_natCast _ (by omega)]
  · rw [encode_read40, toUint32_natCast _ (by omega)]
  · rw [encode_read4, toUint32_natCast _ (by decide)]
    rfl
  · rw [encode_read40, toUint32_natCast _ (by decide)]
    rfl

/-- C3 witness at a concrete one-sample input. -/
theorem C3_sizes_witness :
    [JsNumber.num 0].length * 2 + 36 < 4294967296 ∧
    (readUint32LE (encode [JsNumber.num 0] 44100) 4 = 36 + [JsNumber.num 0].length * 2 ∧
     readUint32LE (encode [JsNumber.num 0] 44100) 40 = [JsNumber.num 0].length * 2 ∧
     readUint32LE (encode [] 44100) 4 = 36 ∧
     readUint32LE (encode [] 44100) 40 = 0) :=
  ⟨by decide, C3_sizes [JsNumber.num 0] 44100 (by decide)⟩

/-- C4: the output buffer has exactly `44 + N*2` bytes. -/
theorem C4_length (data : List JsNumber) (sampleRate : ℚ) :
    (encode data sampleRate).length = 44 + data.length * 2 := by
  simp only [encode, floatTo16BitPCM, floatTo16BitPCMGo_length,
    setUint32LE_length, setUint32BE_length, setUint16LE_length,
    List.length_replicate]

/-- C5: the quantized value of the i-th input sample is written as a signed
    16-bit little-endian integer at byte offset `44 + 2*i`. -/
theorem C5_samples (data : List JsNumber) (sampleRate : ℚ) (i : ℕ)
    (h : i < data.length) :
    readInt16LE (encode data sampleRate) (44 + 2 * i) =
      toInt16 (encodeSample (data.get ⟨i, h⟩)) :=
  encode_readInt16_sample data sampleRate i h

/-- C5 witness: the second sample of a two-sample input is read back at
    offset 46. -/
theorem C5_samples_witness :
    1 < [JsNumber.num 0, JsNumber.num 1].length ∧
    readInt16LE (encode [JsNumber.num 0, JsNumber.num 1] 44100) (44 + 2 * 1) =
      toInt16 (encodeSample ([JsNumber.num 0, JsNumber.num 1].get ⟨1, by decide⟩)) :=
  ⟨by decide, C5_samples [JsNumber.num 0, JsNumber.num 1] 44100 1 (by decide)⟩

/-- C6: `clamp` returns max when the input exceeds max, min when it is below
    min, and the input otherwise; with the concrete examples of the spec. -/
theorem C6_clamp :
    (∀ x lo hi : ℚ, lo ≤ hi →
      ((x > hi → clamp (JsNumber.num x) (JsNumber.num hi) (JsNumber.num lo) =
          JsNumber.num hi) ∧
       (x < lo → clamp (JsNumber.num x) (JsNumber.num hi) (JsNumber.num lo) =
          JsNumber.num lo) ∧
       (¬ x > hi → ¬ x < lo →
          clamp (JsNumber.num x) (JsNumber.num hi) (JsNumber.num lo) =
            JsNumber.num x)))
    ∧ clamp (JsNumber.num (1 / 2)) (JsNumber.num 1) (JsNumber.num (-1)) =
        JsNumber.num (1 / 2)
    ∧ clamp (JsNumber.num (3 / 2)) (JsNumber.num 1) (JsNumber.num (-1)) =
        JsNumber.num 1
    ∧ clamp (JsNumber.num (-3 / 2)) (JsNumber.num 1) (JsNumber.num (-1)) =
        JsNumber.num (-1) := by
  refine ⟨?_, by norm_num [clamp, jgt, jlt], by norm_num [clamp, jgt, jlt],
    by norm_num [clamp, jgt, jlt]⟩
  intro x lo hi hle
  refine ⟨?_, ?_, ?_⟩
  · intro hx
    simp [clamp, jgt, jlt, hx]
  · intro hx
    have hng : ¬ hi < x := by linarith
    simp [clamp, jgt, jlt, hx, hng]
  · intro hx1 hx2
    simp only [gt_iff_lt, not_lt] at hx1 hx2
    have hng : ¬ hi < x := not_lt.mpr hx1
    have hng2 : ¬ x < lo := not_lt.mpr hx2
    simp [clamp, jgt, jlt, hng, hng2]

/-- C6 witness: clamp at the concrete out-of-range input 2. -/
theorem C6_clamp_witness :
    clamp (JsNumber.num 2) (JsNumber.num 1) (JsNumber.num (-1)) = JsNumber.num 1 :=
  (C6_clamp.1 2 (-1) 1 (by norm_num)).1 (by norm_num)

/-- C7: the fixed header fields decode to the values of the spec table, the
    SampleRate field holds the given (positive, 32-bit representable)
    sampleRate, and the default sampleRate is 44100. -/
theorem C7_header (data : List JsNumber) (r : ℕ) (h0 : 0 < r)
    (h32 : r < 4294967296) :
    readUint32BE (encode data ((r : ℕ) : ℚ)) 0 = 0x52494646 ∧
    readUint32BE (encode data ((r : ℕ) : ℚ)) 8 = 0x57415645 ∧
    readUint32BE (encode data ((r : ℕ) : ℚ)) 12 = 0x666d7420 ∧
    readUint32BE (encode data ((r : ℕ) : ℚ)) 36 = 0x64617461 ∧
    readUint32LE (encode data ((r : ℕ) : ℚ)) 16 = 16 ∧
    readUint16LE (encode data ((r : ℕ) : ℚ)) 20 = 1 ∧
    readUint16LE (encode data ((r : ℕ) : ℚ)) 22 = 1 ∧
    readUint16LE (encode data ((r : ℕ) : ℚ)) 32 = 2 ∧
    readUint16LE (encode data ((r : ℕ) : ℚ)) 34 = 16 ∧
    readUint32LE (encode data ((r : ℕ) : ℚ)) 24 = r ∧
    readUint32LE (encode data) 24 = 44100 := by
  refine ⟨encode_read0 data _, encode_read8 data _, encode_read12 data _,
    encode_read36 data _, encode_read16 data _, encode_read20 data _,
    encode_read22 data _, encode_read32 data _, encode_read34 data _, ?_, ?_⟩
  · rw [encode_read24, toUint32_natCast _ h32]
  · rw [encode_read24]
    decide

/-- C7 witness at sampleRate 8000 and the empty input. -/
theorem C7_header_witness :
    0 < 8000 ∧ 8000 < 4294967296 ∧
    (readUint32BE (encode [] ((8000 : ℕ) : ℚ)) 0 = 0x52494646 ∧
     readUint32BE (encode [] ((8000 : ℕ) : ℚ)) 8 = 0x57415645 ∧
     readUint32BE (encode [] ((8000 : ℕ) : ℚ)) 12 = 0x666d7420 ∧
     readUint32BE (encode [] ((8000 : ℕ) : ℚ)) 36 = 0x64617461 ∧
     readUint32LE (encode [] ((8000 : ℕ) : ℚ)) 16 = 16 ∧
     readUint16LE (encode [] ((8000 : ℕ) : ℚ)) 20 = 1 ∧
     readUint16LE (encode [] ((8000 : ℕ) : ℚ)) 22 = 1 ∧
     readUint16LE (encode [] ((8000 : ℕ) : ℚ)) 32 = 2 ∧
     readUint16LE (encode [] ((8000 : ℕ) : ℚ)) 34 = 16 ∧
     readUint32LE (encode [] ((8000 : ℕ) : ℚ)) 24 = 8000 ∧
     readUint32LE (encode []) 24 = 44100) :=
  ⟨by decide, by decide, C7_header [] 8000 (by decide) (by decide)⟩

/-- C8: `encode` is deterministic — equal inputs give byte-identical
    outputs. -/
theorem C8_deterministic (d1 d2 : List JsNumber) (r1 r2 : ℚ)
    (hd : d1 = d2) (hr : r1 = r2) : encode d1 r1 = encode d2 r2 := by
  rw [hd, hr]

/-- C8 witness at a concrete input. -/
theorem C8_deterministic_witness :
    [JsNumber.num 0] = [JsNumber.num 0] ∧ (44100 : ℚ) = 44100 ∧
    encode [JsNumber.num 0] 44100 = encode [JsNumber.num 0] 44100 :=
  ⟨rfl, rfl, C8_deterministic [JsNumber.num 0] [JsNumber.num 0] 44100 44100 rfl rfl⟩

/-- C9: a NaN sample passes through `clamp` unchanged, and the 16-bit write
    coerces it to 0, so a NaN sample encodes as the 16-bit value 0. -/
theorem C9_nan :
    clamp JsNumber.nan (JsNumber.num 1) (JsNumber.num (-1)) = JsNumber.nan ∧
    (∀ (data : List JsNumber) (sampleRate : ℚ) (i : ℕ) (h : i < data.length),
      data.get ⟨i, h⟩ = JsNumber.nan →
      readInt16LE (encode data sampleRate) (44 + 2 * i) = 0) := by
  refine ⟨rfl, ?_⟩
  intro data sampleRate i h hnan
  rw [encode_readInt16_sample data sampleRate i h, hnan]
  rfl

/-- C9 witness: a single NaN sample encodes as 0 at offset 44. -/
theorem C9_nan_witness :
    readInt16LE (encode [JsNumber.nan] 44100) (44 + 2 * 0) = 0 :=
  C9_nan.2 [JsNumber.nan] 44100 0 (by decide) rfl

/-- C10: the first 44 bytes depend only on the input length and sampleRate,
    and the byte pair at offsets `44+2*i`, `44+2*i+1` depends only on the
    i-th sample. -/
theorem C10_noninterference :
    (∀ (d1 d2 : List JsNumber) (r : ℚ), d1.length = d2.length →
      ∀ j, j < 44 → readByte (encode d1 r) j = readByte (encode d2 r) j) ∧
    (∀ (d1 d2 : List JsNumber) (r : ℚ) (i : ℕ)
      (h1 : i < d1.length) (h2 : i < d2.length),
      d1.get ⟨i, h1⟩ = d2.get ⟨i, h2⟩ →
      readByte (encode d1 r) (44 + 2 * i) = readByte (encode d2 r) (44 + 2 * i) ∧
      readByte (encode d1 r) (44 + 2 * i + 1) =
        readByte (encode d2 r) (44 + 2 * i + 1)) := by
  constructor
  · intro d1 d2 r hlen j hj
    simp only [encode, floatTo16BitPCM]
    rw [floatTo16BitPCMGo_readByte_lo 44 d1 _ 0 j (by omega),
      floatTo16BitPCMGo_readByte_lo 44 d2 _ 0 j (by omega), hlen]
  · intro d1 d2 r i h1 h2 heq
    obtain ⟨a1, b1⟩ := encode_readByte_sample d1 r i h1
    obtain ⟨a2, b2⟩ := encode_readByte_sample d2 r i h2
    exact ⟨by rw [a1, a2, heq], by rw [b1, b2, heq]⟩

/-- C10 witness: two inputs of equal length agreeing on index 1 produce the
    same header byte 4 and the same byte pair for sample 1. -/
theorem C10_noninterference_witness :
    readByte (encode [JsNumber.num 0, JsNumber.num 2] 44100) 4 =
      readByte (encode [JsNumber.num 1, JsNumber.num 2] 44100) 4 ∧
    readByte (encode [JsNumber.num 0, JsNumber.num 2] 44100) (44 + 2 * 1) =
      readByte (encode [JsNumber.num 1, JsNumber.num 2] 44100) (44 + 2 * 1) :=
  ⟨C10_noninterference.1 [JsNumber.num 0, JsNumber.num 2]
      [JsNumber.num 1, JsNumber.num 2] 44100 rfl 4 (by decide),
   (C10_noninterference.2 [JsNumber.num 0, JsNumber.num 2]
      [JsNumber.num 1, JsNumber.num 2] 44100 1 (by decide) (by decide) rfl).1⟩

end ArraybufferToWav
